import Mathlib

/-!
Verification development for the ExifLab repository.

The embedding below translates the core EXIF decoding and privacy
classification code of the repository into Lean:

- src/src/lib/exif-categories.ts      (privacy classifier and tag assembler)
- src/src/app/api/extract-exif/route.ts (RobustExifParser and the GPS
  extraction section of the POST handler)

JavaScript dynamic values are modelled by the inductive type JSVal;
JavaScript numbers are modelled by exact rationals (the decoder only
performs additions, multiplications and divisions on values small enough
that double rounding is not the subject of any claim); byte buffers are
lists of naturals; JavaScript exceptions are modelled by the Except monad.
-/

namespace ExifLab

/-- Model of a JavaScript runtime value as it flows through the EXIF
pipeline: undefined, null, number, string, array, or Date.  (The pipeline
never builds plain non-Date objects that survive filtering, see the notes
at processExifData.)  NaN is modelled where needed as an absent Option
value rather than as a JSVal constructor, since the decoder itself never
produces NaN. -/
inductive JSVal where
  | jsUndefined : JSVal
  | jsnull : JSVal
  | num (q : ℚ) : JSVal
  | str (s : String) : JSVal
  | arr (elems : List JSVal) : JSVal
  | date (iso : String) : JSVal

/-- Lower-casing of a string, modelling String.prototype.toLowerCase on the
ASCII tag names used throughout the classifier. -/
def jsToLower (s : String) : String :=
  String.mk (s.data.map Char.toLower)

/-- Decides whether the first character list starts the second one. -/
def charsHavePre : List Char → List Char → Bool
  | [], _ => true
  | _ :: _, [] => false
  | a :: as, b :: bs => a == b && charsHavePre as bs

/-- Decides whether the first character list occurs contiguously inside the
second one. -/
def charsHaveSub (needle : List Char) (hay : List Char) : Bool :=
  match hay with
  | [] => needle.isEmpty
  | _ :: rest => charsHavePre needle hay || charsHaveSub needle rest

/-- Model of JavaScript String.prototype.includes: sub occurs in s. -/
def jsIncludes (s sub : String) : Bool :=
  charsHaveSub sub.data s.data

/-- Model of JavaScript String.prototype.startsWith. -/
def jsStartsWith (s p : String) : Bool :=
  charsHavePre p.data s.data

/-- Lexicographic code-point order on character lists. -/
def charsLt : List Char → List Char → Bool
  | [], [] => false
  | [], _ :: _ => true
  | _ :: _, [] => false
  | a :: as, b :: bs => a < b || (a == b && charsLt as bs)

/-- Code-point order on strings, modelling the ordering behaviour of
localeCompare on the ASCII tag names that reach the final sort. -/
def strLt (s t : String) : Bool :=
  charsLt s.data t.data

/-- The three privacy tiers of the classifier. -/
inductive Privacy where
  | high : Privacy
  | medium : Privacy
  | safe : Privacy
deriving DecidableEq, Repr

/-- EXIF_PRIVACY_CATEGORIES.high from src/src/lib/exif-categories.ts. -/
def highTags : List String :=
  ["GPSLatitude", "GPSLongitude", "latitude", "longitude", "GPSLatitudeRef", "GPSLongitudeRef",
   "GPSAltitude", "GPSAltitudeRef", "GPSTimeStamp", "GPSDateStamp", "GPSProcessingMethod",
   "GPSAreaInformation", "GPSDestLatitude", "GPSDestLongitude", "GPSImgDirection", "GPSMapDatum",
   "GPSSatellites", "GPSStatus", "GPSMeasureMode", "GPSDOP", "GPSSpeed", "GPSTrack",
   "DateTimeOriginal", "DateTimeDigitized", "DateTime", "CreateDate", "ModifyDate",
   "FileModifyDate", "FileAccessDate", "FileCreateDate",
   "Artist", "Copyright", "OwnerName", "CameraOwnerName", "Creator", "Publisher", "Rights",
   "Author", "By-line", "CopyrightNotice", "Credit", "Source",
   "SerialNumber", "LensSerialNumber", "InternalSerialNumber", "BodySerialNumber",
   "CameraSerialNumber", "ImageUniqueID",
   "UserComment", "ImageDescription", "DocumentName", "Title", "Description", "Subject",
   "Keywords", "Comment", "Instructions", "XPComment", "XPSubject", "XPTitle", "XPKeywords",
   "Prompt", "GeneratedBy", "Model", "Seed", "Steps", "CFGScale", "Sampler", "NegativePrompt",
   "Parameters", "AIModel", "GenerationSettings",
   "Software", "ProcessingSoftware", "HostComputer", "OperatingSystem", "SoftwareVersion"]

/-- EXIF_PRIVACY_CATEGORIES.medium from src/src/lib/exif-categories.ts. -/
def mediumTags : List String :=
  ["Make", "Model", "LensMake", "LensModel", "LensInfo", "LensType", "LensSpecification",
   "CameraModelName", "LensModelName",
   "FNumber", "ExposureTime", "ISO", "ISOSpeedRatings", "SensitivityType", "FocalLength",
   "FocalLengthIn35mmFormat", "MaxApertureValue", "ApertureValue", "ShutterSpeedValue",
   "ExposureMode", "ExposureProgram", "ExposureBiasValue", "MeteringMode", "LightSource",
   "Flash", "FlashMode", "WhiteBalance", "DigitalZoomRatio", "SceneCaptureType",
   "GainControl", "Contrast", "Saturation", "Sharpness", "SubjectDistanceRange",
   "Orientation", "XResolution", "YResolution", "ResolutionUnit", "ColorSpace",
   "ExifVersion", "FlashpixVersion", "ComponentsConfiguration", "CompressedBitsPerPixel",
   "FirmwareVersion", "LensType",
   "FileName", "ImageNumber", "FileNumber", "ShutterCount"]

/-- EXIF_PRIVACY_CATEGORIES.safe from src/src/lib/exif-categories.ts. -/
def safeTags : List String :=
  ["ImageWidth", "ImageHeight", "ImageSize", "Megapixels", "ExifImageWidth", "ExifImageHeight",
   "BitsPerSample", "Compression", "PhotometricInterpretation", "SamplesPerPixel",
   "PlanarConfiguration", "YCbCrSubSampling", "YCbCrPositioning", "ReferenceBlackWhite",
   "ColorComponents", "EncodingProcess",
   "FileType", "FileTypeExtension", "MIMEType", "ExifByteOrder", "FileSize",
   "JFIFVersion", "XMPToolkit", "CurrentIPTCDigest", "CodedCharacterSet",
   "ApplicationRecordVersion",
   "ThumbnailImage", "ThumbnailLength", "ThumbnailOffset", "PreviewImage",
   "ColorProfile", "ICCProfile", "ColorMode", "ColorTemperature"]

/-- One iteration of the category list scans inside categorizeExifTag:
the tag matches a list element when the lowered name equals the lowered
element, contains it, or the raw name equals the element. -/
def tagMatches (lowerTag tagName : String) (t : String) : Bool :=
  lowerTag == jsToLower t || jsIncludes lowerTag (jsToLower t) || tagName == t

/-- Translation of categorizeExifTag from src/src/lib/exif-categories.ts:
first the high allow-list, then the GPS/location, date-time and
personal-information substring fallbacks, then the medium allow-list and
its fallbacks, then the safe allow-list, defaulting to medium. -/
def categorizeExifTag (tagName : String) : Privacy :=
  let lowerTag := jsToLower tagName
  let inc := fun (p : String) => jsIncludes lowerTag p
  if highTags.any (tagMatches lowerTag tagName) then .high
  else if inc "gps" || inc "location" || inc "coordinate" ||
          inc "latitude" || inc "longitude" then .high
  else if inc "date" || (inc "time" && !(inc "timezone")) then .high
  else if inc "owner" || inc "artist" || inc "serial" ||
          inc "comment" || inc "author" || inc "copyright" then .high
  else if mediumTags.any (tagMatches lowerTag tagName) then .medium
  else if inc "camera" || inc "lens" || inc "make" ||
          (inc "model" && !(inc "color")) then .medium
  else if inc "exposure" || inc "iso" || inc "focal" ||
          inc "aperture" || inc "shutter" || inc "flash" ||
          inc "white" || inc "orientation" then .medium
  else if safeTags.any (tagMatches lowerTag tagName) then .safe
  else .medium

/-- EXIF_TAG_NAMES from src/src/lib/exif-categories.ts: numeric tag IDs and
aliases mapped to canonical names. -/
def EXIF_TAG_NAMES : List (String × String) :=
  [("0", "GPSVersionID"), ("1", "GPSLatitudeRef"), ("2", "GPSLatitude"), ("3", "GPSLongitudeRef"),
   ("4", "GPSLongitude"), ("5", "GPSAltitudeRef"), ("6", "GPSAltitude"), ("7", "GPSTimeStamp"),
   ("8", "GPSSatellites"), ("9", "GPSStatus"), ("10", "GPSMeasureMode"), ("11", "GPSDOP"),
   ("12", "GPSSpeedRef"), ("13", "GPSSpeed"), ("14", "GPSTrackRef"), ("15", "GPSTrack"),
   ("16", "GPSImgDirectionRef"), ("17", "GPSImgDirection"), ("18", "GPSMapDatum"),
   ("19", "GPSDestLatitudeRef"), ("20", "GPSDestLatitude"), ("21", "GPSDestLongitudeRef"),
   ("22", "GPSDestLongitude"), ("29", "GPSDateStamp"),
   ("271", "Make"), ("272", "Model"), ("274", "Orientation"), ("282", "XResolution"),
   ("283", "YResolution"), ("296", "ResolutionUnit"), ("305", "Software"), ("306", "DateTime"),
   ("315", "Artist"), ("33432", "Copyright"),
   ("33434", "ExposureTime"), ("33437", "FNumber"), ("34855", "ISO"), ("34850", "ExposureProgram"),
   ("36864", "ExifVersion"), ("36867", "DateTimeOriginal"), ("36868", "DateTimeDigitized"),
   ("37121", "ComponentsConfiguration"), ("37377", "ShutterSpeedValue"), ("37378", "ApertureValue"),
   ("37380", "ExposureBiasValue"), ("37381", "MaxApertureValue"), ("37383", "MeteringMode"),
   ("37384", "LightSource"), ("37385", "Flash"), ("37386", "FocalLength"), ("37510", "UserComment"),
   ("40960", "FlashpixVersion"), ("40961", "ColorSpace"), ("40962", "ExifImageWidth"),
   ("40963", "ExifImageHeight"), ("41728", "FileSource"), ("41729", "SceneType"),
   ("41985", "CustomRendered"), ("41986", "ExposureMode"), ("41987", "WhiteBalance"),
   ("41988", "DigitalZoomRatio"), ("41989", "FocalLengthIn35mmFormat"), ("41990", "SceneCaptureType"),
   ("41991", "GainControl"), ("41992", "Contrast"), ("41993", "Saturation"), ("41994", "Sharpness"),
   ("41996", "SubjectDistanceRange"), ("42032", "CameraOwnerName"), ("42033", "BodySerialNumber"),
   ("42034", "LensSpecification"), ("42035", "LensMake"), ("42036", "LensModel"),
   ("42037", "LensSerialNumber"),
   ("531", "YCbCrPositioning"),
   ("latitude", "GPSLatitude"), ("longitude", "GPSLongitude"), ("altitude", "GPSAltitude"),
   ("FileName", "FileName"), ("FileSize", "FileSize"), ("FileType", "FileType"),
   ("MIMEType", "MIMEType"), ("ImageWidth", "ImageWidth"), ("ImageHeight", "ImageHeight")]

/-- EXIF_TAG_DESCRIPTIONS from src/src/lib/exif-categories.ts. -/
def EXIF_TAG_DESCRIPTIONS : List (String × String) :=
  [("GPSLatitude", "Exact geographical latitude where the image was captured - MAJOR PRIVACY RISK"),
   ("GPSLongitude", "Exact geographical longitude where the image was captured - MAJOR PRIVACY RISK"),
   ("GPSAltitude", "Altitude above sea level where the image was captured"),
   ("GPSLatitudeRef", "Direction reference (North/South) for latitude coordinates"),
   ("GPSLongitudeRef", "Direction reference (East/West) for longitude coordinates"),
   ("GPSTimeStamp", "Exact time when GPS coordinates were recorded"),
   ("GPSDateStamp", "Date when GPS coordinates were recorded"),
   ("GPSMapDatum", "Geodetic coordinate system used for GPS positioning"),
   ("GPSSatellites", "GPS satellites used for position calculation"),
   ("DateTimeOriginal", "Date and time when the image was originally captured - can reveal personal patterns"),
   ("DateTimeDigitized", "Date and time when the image was digitized"),
   ("DateTime", "Date and time when the image file was last modified"),
   ("Artist", "Name of the image creator or photographer"),
   ("Copyright", "Copyright information that may contain personal details"),
   ("CameraOwnerName", "Name of the camera owner"),
   ("BodySerialNumber", "Camera body serial number - can be used for device tracking"),
   ("LensSerialNumber", "Lens serial number - can be used for device tracking"),
   ("UserComment", "User-entered comment that may contain personal information"),
   ("Make", "Camera manufacturer (e.g., Canon, Nikon, Apple)"),
   ("Model", "Camera model - can indicate expensive equipment ownership"),
   ("LensMake", "Lens manufacturer"),
   ("LensModel", "Lens model and specifications"),
   ("Software", "Software used to create or edit the image"),
   ("FNumber", "Aperture f-stop value used (affects depth of field)"),
   ("ExposureTime", "Shutter speed used for the exposure"),
   ("ISO", "ISO sensitivity setting used"),
   ("FocalLength", "Lens focal length used for the shot"),
   ("Flash", "Flash mode and settings used"),
   ("WhiteBalance", "White balance setting used"),
   ("ExposureMode", "Exposure mode (manual, auto, etc.)"),
   ("MeteringMode", "Light metering mode used"),
   ("ImageWidth", "Image width in pixels"),
   ("ImageHeight", "Image height in pixels"),
   ("Orientation", "Image orientation (rotation)"),
   ("XResolution", "Horizontal resolution"),
   ("YResolution", "Vertical resolution"),
   ("ColorSpace", "Color space used (sRGB, Adobe RGB, etc.)"),
   ("FileSize", "File size in bytes"),
   ("FileType", "Image file format (JPEG, PNG, etc.)"),
   ("MIMEType", "MIME type of the image file"),
   ("FileName", "Original filename of the image")]

/-- Test for the regular expression of one or more digits used by
normalizeTagName. -/
def isAllDigits (s : String) : Bool :=
  !s.isEmpty && s.data.all Char.isDigit

/-- Translation of normalizeTagName from src/src/lib/exif-categories.ts. -/
def normalizeTagName (tagName : String) : String :=
  match EXIF_TAG_NAMES.lookup tagName with
  | some n => n
  | none =>
    if isAllDigits tagName then "Unknown_Tag_" ++ tagName
    else tagName

/-- Translation of getTagDescription from src/src/lib/exif-categories.ts.
The value argument is accepted and ignored exactly as in the source. -/
def getTagDescription (tagName : String) (_value : JSVal) : String :=
  match EXIF_TAG_DESCRIPTIONS.lookup tagName with
  | some d => d
  | none =>
    let lowerTag := jsToLower tagName
    let inc := fun (p : String) => jsIncludes lowerTag p
    if inc "gps" || inc "latitude" || inc "longitude" then
      "GPS location data - reveals exact geographical coordinates where image was taken"
    else if inc "date" || inc "time" then
      "Date/time information - can reveal personal patterns and routines"
    else if inc "serial" || inc "id" then
      "Device identifier - can be used for tracking across multiple images"
    else if inc "make" || inc "model" then
      "Equipment information - reveals camera/device specifications"
    else if inc "software" || inc "version" then
      "Software information - reveals applications used to create or edit image"
    else
      "EXIF metadata: " ++ tagName

/-- The ExifTag record pushed by processExifData (interface ExifTag of
src/src/types/exif.ts, with the optional group field never set). -/
structure ExifTag where
  tag : String
  value : JSVal
  description : String
  category : Privacy

/-- JavaScript typeof v === object (true for null, arrays and Dates). -/
def jsTypeofObject : JSVal → Bool
  | .jsnull => true
  | .arr _ => true
  | .date _ => true
  | _ => false

/-- JavaScript Array.isArray. -/
def jsIsArray : JSVal → Bool
  | .arr _ => true
  | _ => false

/-- JavaScript instanceof Date. -/
def jsIsDate : JSVal → Bool
  | .date _ => true
  | _ => false

/-- JavaScript strict inequality against undefined. -/
def jsIsUndefined : JSVal → Bool
  | .jsUndefined => true
  | _ => false

/-- JavaScript strict equality against null. -/
def jsIsNull : JSVal → Bool
  | .jsnull => true
  | _ => false

/-- JavaScript strict equality against the empty string. -/
def jsIsEmptyStr : JSVal → Bool
  | .str "" => true
  | _ => false

/-- The filter predicate of the cleanData stage of processExifData.
JavaScript operator precedence makes the chain of conjunctions bind
tighter than the two final disjuncts, so an array or Date value passes the
filter regardless of the key-prefix conditions. -/
def keepEntry (kv : String × JSVal) : Bool :=
  (!jsIsUndefined kv.2 && !jsIsNull kv.2 && !jsIsEmptyStr kv.2 &&
   !jsStartsWith kv.1 "_" && !jsStartsWith kv.1 "$" &&
   !jsTypeofObject kv.2) || jsIsArray kv.2 || jsIsDate kv.2

/-- The cleanData filtering stage of processExifData. -/
def cleanData (rawData : List (String × JSVal)) : List (String × JSVal) :=
  rawData.filter keepEntry

/-- Rounding of a non-integer number to six decimals, modelling
Number(value.toFixed(6)) on exact rational inputs (the ECMAScript toFixed
rounding picks the larger candidate on ties, which is the rounding of
Mathlib round). -/
def jsToFixed6 (q : ℚ) : ℚ :=
  (round (q * 1000000) : ℤ) / 1000000

/-- The display-value formatting step of processExifData.  The JSVal model
has no plain non-Date object constructor because no value of that shape
survives the cleanData filter, so the capped-JSON branch of the source has
no corresponding case here. -/
def displayValueOf : JSVal → JSVal
  | .arr l => .arr l
  | .date iso => .str iso
  | .num q => if q.den = 1 then .num q else .num (jsToFixed6 q)
  | v => v

/-- The per-entry body of the processExifData loop: normalize the name,
skip synthetic unknown tags with non-array object values, otherwise build
the ExifTag record. -/
def assembleTag (kv : String × JSVal) : Option ExifTag :=
  let normalizedName := normalizeTagName kv.1
  if jsStartsWith normalizedName "Unknown_Tag_" &&
     (jsTypeofObject kv.2 && !jsIsArray kv.2) then
    none
  else
    some { tag := normalizedName,
           value := displayValueOf kv.2,
           description := getTagDescription normalizedName kv.2,
           category := categorizeExifTag normalizedName }

/-- Numeric rank of a category in the final sort (high first). -/
def catOrder : Privacy → Nat
  | .high => 0
  | .medium => 1
  | .safe => 2

/-- Strict comes-before relation of the final sort comparator: negative
comparator value, with localeCompare modelled as code-point order on the
ASCII tag names. -/
def tagCmpLt (a b : ExifTag) : Bool :=
  catOrder a.category < catOrder b.category ||
  (catOrder a.category == catOrder b.category && strLt a.tag b.tag)

/-- Stable insertion of an element into an already sorted tag list: the
element moves left past exactly the elements strictly after it. -/
def sortInsert (x : ExifTag) : List ExifTag → List ExifTag
  | [] => [x]
  | y :: ys => if tagCmpLt x y then x :: y :: ys else y :: sortInsert x ys

/-- Stable sort of the assembled tag list.  ECMAScript Array.prototype.sort
is stable, and every stable sort agrees on a total preorder comparator, so
insertion sort is a faithful model. -/
def sortTags : List ExifTag → List ExifTag
  | [] => []
  | x :: xs => sortInsert x (sortTags xs)

/-- Translation of processExifData from src/src/lib/exif-categories.ts:
filter, normalize and classify, then sort by category rank and name. -/
def processExifData (rawData : List (String × JSVal)) : List ExifTag :=
  sortTags ((cleanData rawData).filterMap assembleTag)

/-! ## The RobustExifParser of src/src/app/api/extract-exif/route.ts

Byte buffers are lists of naturals (each byte below 256 in every real
buffer; reads only index the list).  Read offsets are rationals because
a directory entry whose value is a non-integer rational can flow back
into an offset position; a DataView access converts the offset with
ToIndex (truncation, negative forbidden).  A JavaScript exception from an
unchecked DataView access is an Except error carrying Unit, turned into a
Thrown record carrying the tag map collected so far when it crosses
parseIFD, which models the mutable tag object observed by the top-level
catch in parse. -/

abbrev Bytes := List Nat

abbrev Tags := List (String × JSVal)

/-! Reducible rational arithmetic.  The Batteries implementations of
rational addition, multiplication, inversion and division carry the
irreducible attribute, which stops kernel evaluation of the embedding on
concrete buffers; the helpers below compute the same values through the
reducible mkRat and divInt constructors and are proved equal to the
standard operations. -/

/-- Reducible rational addition. -/
def qAdd (a b : ℚ) : ℚ :=
  mkRat (a.num * b.den + b.num * a.den) (a.den * b.den)

/-- Reducible rational multiplication. -/
def qMul (a b : ℚ) : ℚ :=
  mkRat (a.num * b.num) (a.den * b.den)

/-- Reducible division of two naturals as rationals, as produced by the
uint32 over uint32 rational reads. -/
def qDivNat (n d : Nat) : ℚ :=
  mkRat n d

/-- Reducible division of two integers as rationals, as produced by the
signed rational reads. -/
def qDivInt (n d : ℤ) : ℚ :=
  Rat.divInt n d

/-- Reducible rational division. -/
def qDiv (a b : ℚ) : ℚ :=
  qMul a (Rat.divInt b.den b.num)

/-- The checkBounds method of RobustExifParser on rational offsets:
offset nonnegative and offset + length within the buffer. -/
def checkBoundsQ (buf : Bytes) (off : ℚ) (len : Nat) : Bool :=
  decide (0 ≤ off) && decide (qAdd off (len : ℚ) ≤ ((buf.length : Nat) : ℚ))

/-- ECMAScript ToIndex on a nonnegative rational offset: truncation. -/
def qTrunc (off : ℚ) : Nat :=
  (Rat.floor off).toNat

/-- One stored byte of the underlying Uint8Array: buffers only ever hold
values below 256, which the model enforces by reduction so that theorems
can quantify over arbitrary lists. -/
def byteAt (buf : Bytes) (i : Nat) : Nat :=
  buf.getD i 0 % 256

/-- DataView.getUint8: throws unless the byte is inside the buffer. -/
def rawU8 (buf : Bytes) (off : ℚ) : Except Unit Nat :=
  if 0 ≤ off ∧ qTrunc off + 1 ≤ buf.length then .ok (byteAt buf (qTrunc off))
  else .error ()

/-- DataView.getUint16 with an endianness flag. -/
def rawU16 (buf : Bytes) (off : ℚ) (littleEndian : Bool) : Except Unit Nat :=
  if 0 ≤ off ∧ qTrunc off + 2 ≤ buf.length then
    let b0 := byteAt buf (qTrunc off)
    let b1 := byteAt buf (qTrunc off + 1)
    .ok (if littleEndian then b1 * 256 + b0 else b0 * 256 + b1)
  else .error ()

/-- DataView.getUint32 with an endianness flag. -/
def rawU32 (buf : Bytes) (off : ℚ) (littleEndian : Bool) : Except Unit Nat :=
  if 0 ≤ off ∧ qTrunc off + 4 ≤ buf.length then
    let b0 := byteAt buf (qTrunc off)
    let b1 := byteAt buf (qTrunc off + 1)
    let b2 := byteAt buf (qTrunc off + 2)
    let b3 := byteAt buf (qTrunc off + 3)
    .ok (if littleEndian then ((b3 * 256 + b2) * 256 + b1) * 256 + b0
         else ((b0 * 256 + b1) * 256 + b2) * 256 + b3)
  else .error ()

/-- DataView.getInt32: the unsigned value reinterpreted in two-complement. -/
def rawI32 (buf : Bytes) (off : ℚ) (littleEndian : Bool) : Except Unit ℤ :=
  (rawU32 buf off littleEndian).map fun u =>
    if u < 2 ^ 31 then (u : ℤ) else (u : ℤ) - 2 ^ 32

/-- The safeReadUint8 method: bounds check first, null on failure. -/
def safeReadUint8 (buf : Bytes) (off : ℚ) : Except Unit (Option Nat) :=
  if checkBoundsQ buf off 1 then do
    let v ← rawU8 buf off
    pure (some v)
  else pure none

/-- The safeReadUint16 method. -/
def safeReadUint16 (buf : Bytes) (off : ℚ) (littleEndian : Bool) :
    Except Unit (Option Nat) :=
  if checkBoundsQ buf off 2 then do
    let v ← rawU16 buf off littleEndian
    pure (some v)
  else pure none

/-- The safeReadUint32 method. -/
def safeReadUint32 (buf : Bytes) (off : ℚ) (littleEndian : Bool) :
    Except Unit (Option Nat) :=
  if checkBoundsQ buf off 4 then do
    let v ← rawU32 buf off littleEndian
    pure (some v)
  else pure none

/-- The character-accumulating loop of safeReadString: a null read aborts
with null, a zero byte terminates the string. -/
def readStringLoop (buf : Bytes) : ℚ → Nat → String → Except Unit (Option String)
  | _, 0, acc => pure (some acc)
  | off, n+1, acc => do
    let b ← safeReadUint8 buf off
    match b with
    | none => pure none
    | some 0 => pure (some acc)
    | some b => readStringLoop buf (qAdd off 1) n (acc.push (Char.ofNat b))

/-- The safeReadString method. -/
def safeReadString (buf : Bytes) (off : ℚ) (len : Nat) : Except Unit (Option String) :=
  if checkBoundsQ buf off len then readStringLoop buf off len ""
  else pure none

/-- The readRational method: two uint32 reads; null when either read fails
or the denominator is zero. -/
def readRational (buf : Bytes) (le : Bool) (off : ℚ) : Except Unit (Option ℚ) := do
  let numerator ← safeReadUint32 buf off le
  let denominator ← safeReadUint32 buf (qAdd off 4) le
  match numerator, denominator with
  | some n, some d =>
    if d = 0 then pure none else pure (some (qDivNat n d))
  | _, _ => pure none

/-- The readSignedRational method: a single 8-byte bounds check, then two
raw int32 reads; null when the denominator is zero. -/
def readSignedRational (buf : Bytes) (le : Bool) (off : ℚ) : Except Unit (Option ℚ) :=
  if checkBoundsQ buf off 8 then do
    let n ← rawI32 buf off le
    let d ← rawI32 buf (qAdd off 4) le
    if d = 0 then pure none else pure (some (qDivInt n d))
  else pure none

/-- The getTypeSize method: the sizes table indexed by type, 0 outside. -/
def getTypeSize (type : Nat) : Nat :=
  List.getD [0, 1, 1, 2, 4, 8, 1, 1, 2, 4, 8, 4, 8] type 0

/-- The single numeric-ID-to-name table of the getTagInfo method.  It mixes
the TIFF, EXIF and GPS namespaces in one flat object. -/
def tagIdNames : List (Nat × String) :=
  [(0x010F, "Make"), (0x0110, "Model"), (0x0112, "Orientation"), (0x011A, "XResolution"),
   (0x011B, "YResolution"), (0x0128, "ResolutionUnit"), (0x0131, "Software"),
   (0x0132, "DateTime"), (0x013B, "Artist"), (0x8298, "Copyright"), (0x8769, "ExifOffset"),
   (0x8825, "GPSOffset"),
   (0x829A, "ExposureTime"), (0x829D, "FNumber"), (0x8827, "ISO"), (0x9000, "ExifVersion"),
   (0x9003, "DateTimeOriginal"), (0x9004, "DateTimeDigitized"), (0x9201, "ShutterSpeedValue"),
   (0x9202, "ApertureValue"), (0x9204, "ExposureBiasValue"), (0x9205, "MaxApertureValue"),
   (0x9207, "MeteringMode"), (0x9208, "LightSource"), (0x9209, "Flash"), (0x920A, "FocalLength"),
   (0x9286, "UserComment"), (0xA000, "FlashpixVersion"), (0xA001, "ColorSpace"),
   (0xA002, "ExifImageWidth"), (0xA003, "ExifImageHeight"), (0xA402, "ExposureMode"),
   (0xA403, "WhiteBalance"), (0xA405, "FocalLengthIn35mmFormat"), (0xA430, "CameraOwnerName"),
   (0xA431, "BodySerialNumber"), (0xA432, "LensSpecification"), (0xA433, "LensMake"),
   (0xA434, "LensModel"), (0xA435, "LensSerialNumber"),
   (0x0000, "GPSVersionID"), (0x0001, "GPSLatitudeRef"), (0x0002, "GPSLatitude"),
   (0x0003, "GPSLongitudeRef"), (0x0004, "GPSLongitude"), (0x0005, "GPSAltitudeRef"),
   (0x0006, "GPSAltitude"), (0x0007, "GPSTimeStamp"), (0x0008, "GPSSatellites"),
   (0x0009, "GPSStatus"), (0x000A, "GPSMeasureMode"), (0x000B, "GPSDOP"),
   (0x000C, "GPSSpeedRef"), (0x000D, "GPSSpeed"), (0x000E, "GPSTrackRef"),
   (0x000F, "GPSTrack"), (0x0010, "GPSImgDirectionRef"), (0x0011, "GPSImgDirection"),
   (0x0012, "GPSMapDatum"), (0x0013, "GPSDestLatitudeRef"), (0x0014, "GPSDestLatitude"),
   (0x0015, "GPSDestLongitudeRef"), (0x0016, "GPSDestLongitude"), (0x001D, "GPSDateStamp"),
   (0x001E, "GPSDifferential")]

/-- The GPS-namespace rows of the getTagInfo table (tag IDs 0x0000 to
0x001E), stated separately to compare resolution in the GPS numeric space
against the full table. -/
def gpsTagIdNames : List (Nat × String) :=
  [(0x0000, "GPSVersionID"), (0x0001, "GPSLatitudeRef"), (0x0002, "GPSLatitude"),
   (0x0003, "GPSLongitudeRef"), (0x0004, "GPSLongitude"), (0x0005, "GPSAltitudeRef"),
   (0x0006, "GPSAltitude"), (0x0007, "GPSTimeStamp"), (0x0008, "GPSSatellites"),
   (0x0009, "GPSStatus"), (0x000A, "GPSMeasureMode"), (0x000B, "GPSDOP"),
   (0x000C, "GPSSpeedRef"), (0x000D, "GPSSpeed"), (0x000E, "GPSTrackRef"),
   (0x000F, "GPSTrack"), (0x0010, "GPSImgDirectionRef"), (0x0011, "GPSImgDirection"),
   (0x0012, "GPSMapDatum"), (0x0013, "GPSDestLatitudeRef"), (0x0014, "GPSDestLatitude"),
   (0x0015, "GPSDestLongitudeRef"), (0x0016, "GPSDestLongitude"), (0x001D, "GPSDateStamp"),
   (0x001E, "GPSDifferential")]

/-- The getTagInfo method: lookup in the flat table, null when absent.
The source wraps the name in a record with a single name field; the bare
name stands for that record here. -/
def getTagInfo (tag : Nat) : Option String :=
  tagIdNames.lookup tag

/-- The element loop shared by the multi-count branches of readValueByType:
read one element at a time, stop at the first null read. -/
def readNumSeq (readOne : ℚ → Except Unit (Option ℚ)) : ℚ → ℚ → Nat → Except Unit (List ℚ)
  | _, _, 0 => pure []
  | off, stride, n+1 => do
    let v ← readOne off
    match v with
    | none => pure []
    | some v => do
      let rest ← readNumSeq readOne (qAdd off stride) stride n
      pure (v :: rest)

/-- Result conversion of the multi-count branches: a nonempty array of
numbers, or null for an empty one. -/
def seqResult (l : List ℚ) : Option JSVal :=
  match l with
  | [] => none
  | _ => some (.arr (l.map JSVal.num))

/-- Lift of an Option Nat reader to the rational-valued element reader
used by readNumSeq. -/
def natReader (r : ℚ → Except Unit (Option Nat)) : ℚ → Except Unit (Option ℚ) :=
  fun off => (r off).map (fun o => o.map fun n => (n : ℚ))

/-- Translation of the readValueByType method.  Types 1, 3, 4, 5 and 10
distinguish a scalar (count 1) from an element loop; type 2 reads a
NUL-terminated string; type 7 copies count raw bytes as an array; type 9
reads one signed 32-bit scalar regardless of count; other types are
unsupported and yield null. -/
def readValueByType (buf : Bytes) (le : Bool) (type count : Nat) (off : ℚ) :
    Except Unit (Option JSVal) :=
  if count = 0 then pure none
  else match type with
  | 1 =>
    if count = 1 then do
      let v ← safeReadUint8 buf off
      pure (v.map fun n => JSVal.num n)
    else do
      let l ← readNumSeq (natReader (fun o => safeReadUint8 buf o)) off 1 count
      pure (seqResult l)
  | 2 => do
    let s ← safeReadString buf off count
    pure (s.map JSVal.str)
  | 3 =>
    if count = 1 then do
      let v ← safeReadUint16 buf off le
      pure (v.map fun n => JSVal.num n)
    else do
      let l ← readNumSeq (natReader (fun o => safeReadUint16 buf o le)) off 2 count
      pure (seqResult l)
  | 4 =>
    if count = 1 then do
      let v ← safeReadUint32 buf off le
      pure (v.map fun n => JSVal.num n)
    else do
      let l ← readNumSeq (natReader (fun o => safeReadUint32 buf o le)) off 4 count
      pure (seqResult l)
  | 5 =>
    if count = 1 then do
      let v ← readRational buf le off
      pure (v.map JSVal.num)
    else do
      let l ← readNumSeq (readRational buf le) off 8 count
      pure (seqResult l)
  | 7 =>
    if checkBoundsQ buf off count then
      pure (some (.arr ((List.range count).map fun i =>
        JSVal.num (byteAt buf (qTrunc off + i)))))
    else pure none
  | 9 =>
    if checkBoundsQ buf off 4 then do
      let v ← rawI32 buf off le
      pure (some (.num (v : ℚ)))
    else pure none
  | 10 =>
    if count = 1 then do
      let v ← readSignedRational buf le off
      pure (v.map JSVal.num)
    else do
      let l ← readNumSeq (readSignedRational buf le) off 8 count
      pure (seqResult l)
  | _ => pure none

/-- Translation of the readTagValue method: unsupported type sizes yield
null; a total size of at most four bytes reads inline from the value
field, otherwise the value field is an offset from tiffStart, bounds
checked before reading. -/
def readTagValue (buf : Bytes) (le : Bool) (tiffStart : Nat) (type count : Nat)
    (valueOffset : Nat) (valueFieldOffset : ℚ) : Except Unit (Option JSVal) :=
  let typeSize := getTypeSize type
  if typeSize = 0 then pure none
  else
    let totalSize := typeSize * count
    if totalSize ≤ 4 then
      readValueByType buf le type count valueFieldOffset
    else
      let dataOffset : ℚ := ((tiffStart + valueOffset : Nat) : ℚ)
      if checkBoundsQ buf dataOffset totalSize then
        readValueByType buf le type count dataOffset
      else pure none

/-- A JavaScript exception as observed by the catch in parse: the tag map
collected so far (the mutable tags object) and whether the exception was
the engine stack-overflow error (true) or a DataView range error (false). -/
structure Thrown where
  tags : Tags
  overflow : Bool

/-- Attaches the current tag map to a read error so it crosses parseIFD
the way a JavaScript exception propagates past the shared mutable tags. -/
def liftRead (tags : Tags) : Except Unit α → Except Thrown α
  | .ok a => .ok a
  | .error () => .error ⟨tags, false⟩

/-- JavaScript object insertion tags[name] = value: replaces the value in
place when the key exists, appends otherwise. -/
def jsInsert (tags : Tags) (k : String) (v : JSVal) : Tags :=
  match tags with
  | [] => [(k, v)]
  | (k0, v0) :: rest =>
    if k0 == k then (k0, v) :: rest else (k0, v0) :: jsInsert rest k v

/-- The entry loop of parseIFD.  The recurse argument is the decoding of a
sub-IFD at one less unit of stack depth.  Returns the tag map and the offset
after the last processed entry (a break leaves currentOffset at the failed
entry, and the next-IFD pointer is then read there, as in the source). -/
def parseEntries (buf : Bytes) (le : Bool) (tiffStart : Nat)
    (recurse : ℚ → Tags → Except Thrown Tags) :
    Nat → ℚ → Tags → Except Thrown (Tags × ℚ)
  | 0, currentOffset, tags => pure (tags, currentOffset)
  | i+1, currentOffset, tags =>
    if !checkBoundsQ buf currentOffset 12 then pure (tags, currentOffset)
    else do
      let tag ← liftRead tags (safeReadUint16 buf currentOffset le)
      let type ← liftRead tags (safeReadUint16 buf (qAdd currentOffset 2) le)
      let count ← liftRead tags (safeReadUint32 buf (qAdd currentOffset 4) le)
      let valueOffset ← liftRead tags (safeReadUint32 buf (qAdd currentOffset 8) le)
      match tag, type, count, valueOffset with
      | some tag, some type, some count, some valueOffset =>
        match getTagInfo tag with
        | none => parseEntries buf le tiffStart recurse i (qAdd currentOffset 12) tags
        | some name => do
          let value ← liftRead tags
            (readTagValue buf le tiffStart type count valueOffset (qAdd currentOffset 8))
          match value with
          | none => parseEntries buf le tiffStart recurse i (qAdd currentOffset 12) tags
          | some v => do
            let tags1 := jsInsert tags name v
            let tags2 ←
              if tag = 0x8769 then
                match v with
                | .num q => recurse (qAdd (tiffStart : ℚ) q) tags1
                | _ => pure tags1
              else if tag = 0x8825 then
                match v with
                | .num q => recurse (qAdd (tiffStart : ℚ) q) tags1
                | _ => pure tags1
              else pure tags1
            parseEntries buf le tiffStart recurse i (qAdd currentOffset 12) tags2
      | _, _, _, _ => parseEntries buf le tiffStart recurse i (qAdd currentOffset 12) tags

/-- Translation of the parseIFD method.  The source recursion carries no
depth bound; fuel models the JavaScript call stack, and exhausting it is
the engine stack-overflow exception (Thrown with overflow true).  A failed
bounds check or entry-count sanity check returns the tags collected so
far; after the entries, a nonzero next-IFD pointer recurses. -/
def parseIFDE (buf : Bytes) (le : Bool) (tiffStart : Nat) :
    Nat → ℚ → Tags → Except Thrown Tags
  | 0, _, tags => .error ⟨tags, true⟩
  | fuel+1, ifdOffset, tags =>
    if !checkBoundsQ buf ifdOffset 2 then pure tags
    else do
      let entryCount ← liftRead tags (safeReadUint16 buf ifdOffset le)
      match entryCount with
      | none => pure tags
      | some n =>
        if n > 100 then pure tags
        else do
          let r ← parseEntries buf le tiffStart
            (fun off t => parseIFDE buf le tiffStart fuel off t) n (qAdd ifdOffset 2) tags
          if checkBoundsQ buf r.2 4 then do
            let nextIFDOffset ← liftRead r.1 (safeReadUint32 buf r.2 le)
            match nextIFDOffset with
            | some nx =>
              if nx ≠ 0 then parseIFDE buf le tiffStart fuel (((tiffStart + nx : Nat) : ℚ)) r.1
              else pure r.1
            | none => pure r.1
          else pure r.1

/-- The string literal of the Exif APP1 signature comparison in parse:
the six characters E x i f NUL NUL. -/
def exifSig : String :=
  String.mk ['E', 'x', 'i', 'f', Char.ofNat 0, Char.ofNat 0]

/-- The APP1 scanning loop of parse, searching for the Exif header.  The
loop always terminates because every step advances the offset by at least
two; the fuel argument (instantiated with one more than the buffer length,
which bounds the iteration count) only makes that termination structural.
Returns the tiffStart offset when an Exif APP1 segment is found. -/
def markerScan (buf : Bytes) : Nat → Nat → Except Unit (Option Nat)
  | 0, _ => pure none
  | f+1, currentOffset =>
    if currentOffset + 1 < buf.length then
      if !checkBoundsQ buf (currentOffset : ℚ) 4 then pure none
      else do
        let marker ← safeReadUint16 buf (currentOffset : ℚ) false
        match marker with
        | none => pure none
        | some marker =>
          if marker &&& 0xFF00 ≠ 0xFF00 then pure none
          else if marker = 0xFFE1 then do
            let segmentLength ← safeReadUint16 buf (((currentOffset + 2 : Nat) : ℚ)) false
            match segmentLength with
            | none => markerScan buf f (currentOffset + 4)
            | some sl =>
              if sl < 14 then markerScan buf f (currentOffset + 4)
              else do
                let exifHeader ← safeReadString buf (((currentOffset + 4 : Nat) : ℚ)) 6
                if exifHeader = some exifSig then
                  pure (some (currentOffset + 10))
                else markerScan buf f (currentOffset + 2 + sl)
          else if marker = 0xFFDA then pure none
          else do
            let segmentLength ← safeReadUint16 buf (((currentOffset + 2 : Nat) : ℚ)) false
            match segmentLength with
            | none => pure none
            | some sl => markerScan buf f (currentOffset + 2 + sl)
    else pure none

/-- The TIFF-header tail of parse: magic number 42, then the offset to and
decoding of IFD0. -/
def parseTiff (buf : Bytes) (le : Bool) (tiffStart : Nat) (fuel : Nat) :
    Except Thrown Tags := do
  let magic ← liftRead [] (safeReadUint16 buf (((tiffStart + 2 : Nat) : ℚ)) le)
  if magic ≠ some 42 then pure []
  else do
    let ifd0Offset ← liftRead [] (safeReadUint32 buf (((tiffStart + 4 : Nat) : ℚ)) le)
    match ifd0Offset with
    | none => pure []
    | some off => parseIFDE buf le tiffStart fuel (((tiffStart + off : Nat) : ℚ)) []

/-- The body of the parse method before its try/catch: SOI marker, APP1
scan, byte-order mark, then parseTiff. -/
def parseMain (buf : Bytes) (fuel : Nat) : Except Thrown Tags := do
  if !checkBoundsQ buf 0 2 then pure []
  else do
    let soi ← liftRead [] (safeReadUint16 buf 0 false)
    if soi ≠ some 0xFFD8 then pure []
    else do
      let found ← liftRead [] (markerScan buf (buf.length + 1) 2)
      match found with
      | none => pure []
      | some tiffStart => do
        if !checkBoundsQ buf (tiffStart : ℚ) 8 then pure []
        else do
          let byteOrder ← liftRead [] (safeReadUint16 buf (tiffStart : ℚ) false)
          match byteOrder with
          | some 0x4949 => parseTiff buf true tiffStart fuel
          | some 0x4D4D => parseTiff buf false tiffStart fuel
          | _ => pure []

/-- The public parse method: its try/catch turns any exception into the
tag map collected so far. -/
def parse (buf : Bytes) (fuel : Nat) : Tags :=
  match parseMain buf fuel with
  | .ok tags => tags
  | .error e => e.tags

/-! ## The GPS extraction section of the POST handler

Translation of the convertGPSToDecimal closure and the gpsData assembly of
the POST function in src/src/app/api/extract-exif/route.ts (lines 482 to
536), as a function of the tag map. -/

/-- JavaScript truthiness of the values in the model (the numeric values
of the pipeline are never NaN). -/
def jsTruthy : JSVal → Bool
  | .jsUndefined => false
  | .jsnull => false
  | .num q => !(q == 0)
  | .str s => !(s == "")
  | .arr _ => true
  | .date _ => true

/-- Value of a digit string. -/
def digitsVal (cs : List Char) : Nat :=
  cs.foldl (fun acc c => acc * 10 + (c.toNat - 48)) 0

/-- Whitespace skipped by the JavaScript numeric conversions. -/
def jsIsWs (c : Char) : Bool :=
  c == ' ' || c == '\t' || c == '\n' || c == '\r'

/-- Model of the JavaScript parseFloat builtin on the decimal forms the
pipeline produces: optional whitespace and sign, digits with an optional
fractional part, longest valid prefix, NaN (none) when no digit is found.
Exponent notation is not modelled; no claim exercises it. -/
def jsParseFloat (s : String) : Option ℚ :=
  let cs := s.data.dropWhile jsIsWs
  let sgn : ℤ := match cs with
    | '-' :: _ => -1
    | _ => 1
  let cs1 := match cs with
    | '-' :: rest => rest
    | '+' :: rest => rest
    | _ => cs
  let intDigits := cs1.takeWhile Char.isDigit
  let cs2 := cs1.dropWhile Char.isDigit
  let fracDigits := match cs2 with
    | '.' :: rest => rest.takeWhile Char.isDigit
    | _ => []
  if intDigits.isEmpty && fracDigits.isEmpty then none
  else some (mkRat (sgn * (digitsVal (intDigits ++ fracDigits) : ℤ))
    (10 ^ fracDigits.length))

/-- Model of the JavaScript Number builtin on strings: trimmed empty
string is zero, otherwise the whole trimmed string must be a decimal
numeral.  Exponent and radix forms are not modelled; no claim exercises
them. -/
def jsNumberOfString (s : String) : Option ℚ :=
  let cs := ((s.data.dropWhile jsIsWs).reverse.dropWhile jsIsWs).reverse
  if cs.isEmpty then some 0
  else
    let sgn : ℤ := match cs with
      | '-' :: _ => -1
      | _ => 1
    let cs1 := match cs with
      | '-' :: rest => rest
      | '+' :: rest => rest
      | _ => cs
    let intDigits := cs1.takeWhile Char.isDigit
    let cs2 := cs1.dropWhile Char.isDigit
    let fracDigits := match cs2 with
      | '.' :: rest => rest.takeWhile Char.isDigit
      | _ => []
    let rest := match cs2 with
      | '.' :: r => r.dropWhile Char.isDigit
      | r => r
    if rest.isEmpty && !(intDigits.isEmpty && fracDigits.isEmpty) then
      some (mkRat (sgn * (digitsVal (intDigits ++ fracDigits) : ℤ))
        (10 ^ fracDigits.length))
    else none

/-- Model of the JavaScript String builtin on the value shapes that reach
it in this pipeline.  Non-integer rationals would print as decimal float
strings in JavaScript; the fraction form used here is only a placeholder,
and no theorem evaluates it. -/
def jsToString : JSVal → String
  | .jsUndefined => "undefined"
  | .jsnull => "null"
  | .num q => if q.den = 1 then toString q.num else toString q.num ++ "/" ++ toString q.den
  | .str s => s
  | .arr l => String.intercalate "," (l.map fun v =>
      match v with
      | .num q => if q.den = 1 then toString q.num else toString q.num ++ "/" ++ toString q.den
      | .str s => s
      | _ => "")
  | .date iso => iso

/-- Model of the JavaScript Number builtin on the values the GPS code can
coerce: numbers map to themselves, null to zero, strings parse fully,
the empty array to zero, a singleton array through its string form, and
other shapes to NaN. -/
def jsNumber : JSVal → Option ℚ
  | .num q => some q
  | .jsnull => some 0
  | .str s => jsNumberOfString s
  | .arr [] => some 0
  | .arr [v] => jsNumberOfString (jsToString v)
  | _ => none

/-- Whether the reference value is the string S or the string W (strict
string comparisons of the source). -/
def isRefSW : JSVal → Bool
  | .str s => s == "S" || s == "W"
  | _ => false

/-- Translation of the convertGPSToDecimal closure: a three-or-more
element array converts through degrees, minutes and seconds when its
first three coerced elements are numbers; a number passes through; a
string goes through parseFloat; everything else is null.  The result is
negated exactly when the reference is S or W. -/
def convertGPSToDecimal (coord ref : JSVal) : Option ℚ :=
  let neg := fun (x : ℚ) => if isRefSW ref then -x else x
  match coord with
  | .arr l =>
    if 3 ≤ l.length then
      match l.map jsNumber with
      | some deg :: some mn :: some sec :: _ =>
        some (neg (qAdd (qAdd deg (qDiv mn 60)) (qDiv sec 3600)))
      | _ => none
    else none
  | .num q => some (neg q)
  | .str s =>
    match jsParseFloat s with
    | some q => some (neg q)
    | none => none
  | _ => none

/-- JavaScript property access on the tag map: undefined when absent. -/
def lookupD (tags : Tags) (k : String) : JSVal :=
  (tags.lookup k).getD .jsUndefined

/-- The gpsData record of the POST handler.  The altitude field is the
JavaScript expression gpsAlt ? (number gpsAlt or parseFloat of its string
form) : undefined; an inner none is the NaN produced by an unparseable
truthy value. -/
structure GpsRec where
  latitude : ℚ
  longitude : ℚ
  altitude : Option (Option ℚ)

/-- The altitude expression of the POST handler. -/
def altitudeOf (gpsAlt : JSVal) : Option (Option ℚ) :=
  if jsTruthy gpsAlt then
    match gpsAlt with
    | .num q => some (some q)
    | v => some (jsParseFloat (jsToString v))
  else none

/-- The reference defaulting of the POST handler: the value of the
reference tag when truthy, the default hemisphere letter otherwise
(the JavaScript or-default). -/
def refOf (tags : Tags) (key dflt : String) : JSVal :=
  if jsTruthy (lookupD tags key) then lookupD tags key else .str dflt

/-- The GPS assembly of the POST handler: latitude and longitude must both
be present (not undefined) and both convert to numbers, the references
default to N and E when falsy, and the altitude is attached through
altitudeOf. -/
def extractGps (tags : Tags) : Option GpsRec :=
  let gpsLat := lookupD tags "GPSLatitude"
  let gpsLon := lookupD tags "GPSLongitude"
  let gpsLatRef := refOf tags "GPSLatitudeRef" "N"
  let gpsLonRef := refOf tags "GPSLongitudeRef" "E"
  let gpsAlt := lookupD tags "GPSAltitude"
  if !jsIsUndefined gpsLat && !jsIsUndefined gpsLon then
    match convertGPSToDecimal gpsLat gpsLatRef, convertGPSToDecimal gpsLon gpsLonRef with
    | some latitude, some longitude =>
      some { latitude := latitude, longitude := longitude, altitude := altitudeOf gpsAlt }
    | _, _ => none
  else none

/-! ## Concrete buffers used by the claims -/

/-- A small TIFF-like buffer whose directory at offset 8 has zero entries
and a next-IFD pointer that points back to offset 8 itself. -/
def cycBuf : Bytes :=
  [0, 0, 0, 0, 0, 0, 0, 0, 0, 0, 0, 0, 0, 8]

/-- A big-endian directory at offset 0 with a single entry: tag 0x0002
(the GPS-namespace latitude ID), type SHORT, count 1, inline value 7,
followed by a zero next-IFD pointer. -/
def gpsMainBuf : Bytes :=
  [0, 1, 0, 2, 0, 3, 0, 0, 0, 1, 0, 7, 0, 0, 0, 0, 0, 0]

/-- A rational value buffer with numerator 5 and zero denominator. -/
def zeroDenBuf : Bytes :=
  [0, 0, 0, 5, 0, 0, 0, 0]

/-- A JPEG buffer with an Exif APP1 segment whose TIFF part is cut off in
the middle of the first IFD (the declared segment length runs past the end
of the buffer). -/
def truncatedIFDBuf : Bytes :=
  [0xFF, 0xD8, 0xFF, 0xE1, 0, 30, 0x45, 0x78, 0x69, 0x66, 0, 0,
   0x4D, 0x4D, 0, 42, 0, 0, 0, 8, 0, 2]

/-- A JPEG buffer whose TIFF byte-order mark is XX, neither II nor MM. -/
def badByteOrderBuf : Bytes :=
  [0xFF, 0xD8, 0xFF, 0xE1, 0, 20, 0x45, 0x78, 0x69, 0x66, 0, 0,
   0x58, 0x58, 0, 42, 0, 0, 0, 8, 0, 0, 0, 0, 0, 0]

/-- A JPEG buffer whose first-IFD offset 0xFFFF points past the end of the
buffer. -/
def badIFDOffsetBuf : Bytes :=
  [0xFF, 0xD8, 0xFF, 0xE1, 0, 20, 0x45, 0x78, 0x69, 0x66, 0, 0,
   0x4D, 0x4D, 0, 42, 0, 0, 0xFF, 0xFF, 0, 0, 0, 0, 0, 0]

/-! ## Support lemmas -/

theorem qAdd_eq (a b : ℚ) : qAdd a b = a + b :=
  (Rat.add_def' a b).symm
theorem qMul_eq (a b : ℚ) : qMul a b = a * b := by
  rw [Rat.mul_def, Rat.normalize_eq_mkRat]; rfl
theorem qDivNat_eq (n d : Nat) : qDivNat n d = (n : ℚ) / (d : ℚ) := by
  rw [qDivNat, Rat.mkRat_eq_divInt, Rat.divInt_eq_div]
  norm_num
theorem qDivInt_eq (n d : ℤ) : qDivInt n d = (n : ℚ) / (d : ℚ) :=
  Rat.divInt_eq_div n d
theorem qDiv_eq (a b : ℚ) : qDiv a b = a / b := by
  rw [qDiv, qMul_eq, ← Rat.inv_def, Rat.div_def]

theorem ratFloor_eq (q : ℚ) : Rat.floor q = ⌊q⌋ := by
  rw [Rat.floor_def', ← Rat.floor_def]

theorem checkBounds_trunc {buf : Bytes} {off : ℚ} {k : Nat}
    (h : checkBoundsQ buf off k = true) : 0 ≤ off ∧ qTrunc off + k ≤ buf.length := by
  rw [checkBoundsQ, Bool.and_eq_true, decide_eq_true_eq, decide_eq_true_eq, qAdd_eq] at h
  obtain ⟨h1, h2⟩ := h
  refine ⟨h1, ?_⟩
  rw [qTrunc, ratFloor_eq]
  have hfl : (0 : ℤ) ≤ ⌊off⌋ := Int.floor_nonneg.mpr h1
  have hle : (⌊off⌋ : ℚ) ≤ off := Int.floor_le off
  have : (⌊off⌋ : ℚ) + (k : ℚ) ≤ (buf.length : ℚ) := by linarith
  have hz : ⌊off⌋ + (k : ℤ) ≤ (buf.length : ℤ) := by exact_mod_cast this
  omega

theorem checkBounds_mono {buf : Bytes} {off : ℚ} {m n : Nat}
    (h : checkBoundsQ buf off n = true) (hmn : m ≤ n) : checkBoundsQ buf off m = true := by
  rw [checkBoundsQ, Bool.and_eq_true, decide_eq_true_eq, decide_eq_true_eq, qAdd_eq] at h ⊢
  obtain ⟨h1, h2⟩ := h
  have : (m : ℚ) ≤ (n : ℚ) := by exact_mod_cast hmn
  exact ⟨h1, by linarith⟩

theorem checkBounds_shift {buf : Bytes} {off : ℚ} {a b : Nat}
    (h : checkBoundsQ buf off (a + b) = true) :
    checkBoundsQ buf (qAdd off (a : ℚ)) b = true := by
  rw [checkBoundsQ, Bool.and_eq_true, decide_eq_true_eq, decide_eq_true_eq, qAdd_eq] at h ⊢
  obtain ⟨h1, h2⟩ := h
  rw [qAdd_eq]
  push_cast at h2 ⊢
  constructor
  · positivity
  · linarith

theorem rawU8_ok {buf : Bytes} {off : ℚ} (h : checkBoundsQ buf off 1 = true) :
    rawU8 buf off = .ok (byteAt buf (qTrunc off)) := by
  rw [rawU8, if_pos (checkBounds_trunc h)]

theorem rawU16_ok {buf : Bytes} {off : ℚ} {l : Bool} (h : checkBoundsQ buf off 2 = true) :
    ∃ v, rawU16 buf off l = .ok v := by
  obtain ⟨h1, h2⟩ := checkBounds_trunc h
  exact ⟨_, by rw [rawU16, if_pos ⟨h1, h2⟩]⟩

theorem rawU32_ok {buf : Bytes} {off : ℚ} {l : Bool} (h : checkBoundsQ buf off 4 = true) :
    ∃ v, rawU32 buf off l = .ok v := by
  obtain ⟨h1, h2⟩ := checkBounds_trunc h
  exact ⟨_, by rw [rawU32, if_pos ⟨h1, h2⟩]⟩

theorem rawI32_ok {buf : Bytes} {off : ℚ} {l : Bool} (h : checkBoundsQ buf off 4 = true) :
    ∃ v, rawI32 buf off l = .ok v := by
  obtain ⟨v, hv⟩ := rawU32_ok (l := l) h
  exact ⟨_, by rw [rawI32, hv]; rfl⟩

theorem safeReadUint8_some {buf : Bytes} {off : ℚ} (h : checkBoundsQ buf off 1 = true) :
    safeReadUint8 buf off = .ok (some (byteAt buf (qTrunc off))) := by
  rw [safeReadUint8, if_pos h, rawU8_ok h]; rfl

theorem safeReadUint8_ok (buf : Bytes) (off : ℚ) :
    ∃ o, safeReadUint8 buf off = .ok o := by
  by_cases h : checkBoundsQ buf off 1 = true
  · exact ⟨_, safeReadUint8_some h⟩
  · exact ⟨none, by rw [safeReadUint8, if_neg (by simpa using h)]; rfl⟩

theorem safeReadUint16_some {buf : Bytes} {off : ℚ} {l : Bool}
    (h : checkBoundsQ buf off 2 = true) :
    ∃ v, safeReadUint16 buf off l = .ok (some v) := by
  obtain ⟨v, hv⟩ := rawU16_ok (l := l) h
  exact ⟨v, by rw [safeReadUint16, if_pos h, hv]; rfl⟩

theorem safeReadUint16_ok (buf : Bytes) (off : ℚ) (le : Bool) :
    ∃ o, safeReadUint16 buf off le = .ok o := by
  by_cases h : checkBoundsQ buf off 2 = true
  · obtain ⟨v, hv⟩ := safeReadUint16_some (l := le) h
    exact ⟨some v, hv⟩
  · exact ⟨none, by rw [safeReadUint16, if_neg (by simpa using h)]; rfl⟩

theorem safeReadUint32_some {buf : Bytes} {off : ℚ} {l : Bool}
    (h : checkBoundsQ buf off 4 = true) :
    ∃ v, safeReadUint32 buf off l = .ok (some v) := by
  obtain ⟨v, hv⟩ := rawU32_ok (l := l) h
  exact ⟨v, by rw [safeReadUint32, if_pos h, hv]; rfl⟩

theorem safeReadUint32_ok (buf : Bytes) (off : ℚ) (le : Bool) :
    ∃ o, safeReadUint32 buf off le = .ok o := by
  by_cases h : checkBoundsQ buf off 4 = true
  · obtain ⟨v, hv⟩ := safeReadUint32_some (l := le) h
    exact ⟨some v, hv⟩
  · exact ⟨none, by rw [safeReadUint32, if_neg (by simpa using h)]; rfl⟩

theorem exbind_ok {ε α β : Type} (a : α) (f : α → Except ε β) :
    (Except.ok a >>= f) = f a := rfl

theorem liftRead_ok {α : Type} (tags : Tags) (a : α) :
    liftRead tags (Except.ok a) = .ok a := rfl

theorem byteAt_lt (buf : Bytes) (i : Nat) : byteAt buf i < 256 :=
  Nat.mod_lt _ (by omega)

theorem char_toNat_ofNat {b : Nat} (h : b < 55296) : (Char.ofNat b).toNat = b := by
  rw [Char.ofNat, dif_pos (Or.inl h)]
  simp [Char.ofNatAux, Char.toNat, UInt32.toNat, UInt32.ofNat', BitVec.toNat_ofNatLt]

theorem safeReadUint8_cases (buf : Bytes) (off : ℚ) :
    safeReadUint8 buf off = .ok none ∨
      ∃ v, v < 256 ∧ safeReadUint8 buf off = .ok (some v) := by
  by_cases h : checkBoundsQ buf off 1 = true
  · exact .inr ⟨_, byteAt_lt buf (qTrunc off), safeReadUint8_some h⟩
  · exact .inl (by rw [safeReadUint8, if_neg (by simpa using h)]; rfl)

theorem readStringLoop_ok (buf : Bytes) :
    ∀ (n : Nat) (off : ℚ) (acc : String),
      (∀ c ∈ acc.data, c.toNat ≠ 0) →
      (readStringLoop buf off n acc = .ok none ∨
        ∃ s, readStringLoop buf off n acc = .ok (some s) ∧ ∀ c ∈ s.data, c.toNat ≠ 0) := by
  intro n
  induction n with
  | zero =>
    intro off acc hacc
    exact .inr ⟨acc, rfl, hacc⟩
  | succ n ih =>
    intro off acc hacc
    rcases safeReadUint8_cases buf off with h8 | ⟨v, hv, h8⟩
    · rw [readStringLoop, h8, exbind_ok]
      exact .inl rfl
    · rw [readStringLoop, h8, exbind_ok]
      match v, hv with
      | 0, _ => exact .inr ⟨acc, rfl, hacc⟩
      | (b+1), hv =>
        refine ih (qAdd off 1) (acc.push (Char.ofNat (b+1))) ?_
        intro c hc
        rw [String.push, String.data] at hc
        rcases List.mem_append.mp hc with hc | hc
        · exact hacc c hc
        · rw [List.mem_singleton.mp hc, char_toNat_ofNat (by omega)]
          omega

theorem safeReadString_ok (buf : Bytes) (off : ℚ) (len : Nat) :
    safeReadString buf off len = .ok none ∨
      ∃ s, safeReadString buf off len = .ok (some s) ∧ ∀ c ∈ s.data, c.toNat ≠ 0 := by
  rw [safeReadString]
  by_cases h : checkBoundsQ buf off len = true
  · rw [if_pos h]
    exact readStringLoop_ok buf len off "" (by intro c hc; simp at hc)
  · rw [if_neg (by simpa using h)]
    exact .inl rfl

theorem exifSig_has_nul : (Char.ofNat 0) ∈ exifSig.data ∧ (Char.ofNat 0).toNat = 0 := by
  constructor
  · rw [exifSig]
    simp
  · rfl

theorem markerScan_none (buf : Bytes) : ∀ (f off : Nat), markerScan buf f off = .ok none := by
  intro f
  induction f with
  | zero => intro off; rfl
  | succ f ih =>
    intro off
    rw [markerScan]
    split
    · split
      · rfl
      · obtain ⟨m, hm⟩ := safeReadUint16_ok buf (off : ℚ) false
        rw [hm, exbind_ok]
        split
        · rfl
        · split
          · rfl
          · split
            · obtain ⟨sl, hsl⟩ := safeReadUint16_ok buf (((off + 2 : Nat) : ℚ)) false
              rw [hsl, exbind_ok]
              split
              · exact ih _
              · split
                · exact ih _
                · rcases safeReadString_ok buf (((off + 4 : Nat) : ℚ)) 6 with hs | ⟨s, hs, hchars⟩
                  · rw [hs, exbind_ok, if_neg (by simp)]
                    exact ih _
                  · rw [hs, exbind_ok, if_neg ?_]
                    · exact ih _
                    · intro hcontra
                      have hsame : s = exifSig := by simpa using hcontra
                      obtain ⟨hmem, hzero⟩ := exifSig_has_nul
                      exact hchars (Char.ofNat 0) (hsame ▸ hmem) hzero
            · split
              · rfl
              · obtain ⟨sl, hsl⟩ := safeReadUint16_ok buf (((off + 2 : Nat) : ℚ)) false
                rw [hsl, exbind_ok]
                split
                · rfl
                · exact ih _
    · rfl

theorem convertGPS_dms (deg mn sec : ℚ) (rest : List JSVal) (ref : JSVal) :
    convertGPSToDecimal (.arr (.num deg :: .num mn :: .num sec :: rest)) ref =
      some (if isRefSW ref = true then -(deg + mn / 60 + sec / 3600)
            else deg + mn / 60 + sec / 3600) := by
  rw [convertGPSToDecimal]
  simp only [List.map, jsNumber, List.length_cons]
  rw [if_pos (by omega)]
  simp only [qAdd_eq, qDiv_eq]

theorem refOf_default (tags : Tags) (key dflt : String)
    (h : tags.lookup key = none) : refOf tags key dflt = .str dflt := by
  rw [refOf, lookupD, h]
  rfl

theorem extractGps_lat_missing (tags : Tags)
    (h : lookupD tags "GPSLatitude" = .jsUndefined) : extractGps tags = none := by
  rw [extractGps]
  simp only [h]
  rfl

theorem extractGps_lon_missing (tags : Tags)
    (h : lookupD tags "GPSLongitude" = .jsUndefined) : extractGps tags = none := by
  rw [extractGps]
  simp only [h]
  rcases lookupD tags "GPSLatitude" <;> rfl

theorem extractGps_lat_null (tags : Tags)
    (h : convertGPSToDecimal (lookupD tags "GPSLatitude")
      (refOf tags "GPSLatitudeRef" "N") = none) : extractGps tags = none := by
  rw [extractGps]
  simp only [h]
  split
  · rfl
  · rfl

theorem extractGps_lon_null (tags : Tags)
    (h : convertGPSToDecimal (lookupD tags "GPSLongitude")
      (refOf tags "GPSLongitudeRef" "E") = none) : extractGps tags = none := by
  rw [extractGps]
  simp only [h]
  split
  · cases hconv : convertGPSToDecimal (lookupD tags "GPSLatitude")
      (refOf tags "GPSLatitudeRef" "N") <;> rfl
  · rfl

theorem extractGps_altitude (tags : Tags) (g : GpsRec)
    (h : extractGps tags = some g) :
    g.altitude = altitudeOf (lookupD tags "GPSAltitude") := by
  rw [extractGps] at h
  split at h
  · split at h
    · cases h
      rfl
    · cases h
  · cases h

theorem altitudeOf_none_iff (v : JSVal) :
    altitudeOf v = none ↔ jsTruthy v = false := by
  rcases v with _ | _ | q | s | l | d <;>
    simp [altitudeOf, jsTruthy]

theorem parseMain_ok (buf : Bytes) (fuel : Nat) : parseMain buf fuel = .ok [] := by
  rw [parseMain]
  split
  · rfl
  · obtain ⟨o, ho⟩ := safeReadUint16_ok buf 0 false
    rw [ho, liftRead_ok, exbind_ok]
    split
    · rfl
    · rw [markerScan_none buf (buf.length + 1) 2, liftRead_ok, exbind_ok]
      rfl

theorem safeReadUint8_none {buf : Bytes} {off : ℚ} (h : checkBoundsQ buf off 1 = false) :
    safeReadUint8 buf off = .ok none := by
  rw [safeReadUint8, if_neg (by simp [h])]; rfl

theorem safeReadUint16_none {buf : Bytes} {off : ℚ} {le : Bool}
    (h : checkBoundsQ buf off 2 = false) : safeReadUint16 buf off le = .ok none := by
  rw [safeReadUint16, if_neg (by simp [h])]; rfl

theorem safeReadUint32_none {buf : Bytes} {off : ℚ} {le : Bool}
    (h : checkBoundsQ buf off 4 = false) : safeReadUint32 buf off le = .ok none := by
  rw [safeReadUint32, if_neg (by simp [h])]; rfl

theorem readStringLoop_some (buf : Bytes) :
    ∀ (n : Nat) (off : ℚ) (acc : String), checkBoundsQ buf off n = true →
      ∃ s, readStringLoop buf off n acc = .ok (some s) := by
  intro n
  induction n with
  | zero => intro off acc _; exact ⟨acc, rfl⟩
  | succ n ih =>
    intro off acc h
    have h1 : checkBoundsQ buf off 1 = true := checkBounds_mono h (by omega)
    have h2 : checkBoundsQ buf (qAdd off (1 : ℚ)) n = true := by
      have := checkBounds_shift (a := 1) (b := n) (by rw [show 1 + n = n + 1 from by omega]; exact h)
      simpa using this
    rw [readStringLoop, safeReadUint8_some h1, exbind_ok]
    rcases hb : byteAt buf (qTrunc off) with _ | b
    · exact ⟨acc, rfl⟩
    · exact ih (qAdd off 1) (acc.push (Char.ofNat (b + 1))) h2

theorem readNumSeq_full (buf : Bytes) (R : ℚ → Except Unit (Option ℚ)) (w : Nat)
    (hR : ∀ o : ℚ, checkBoundsQ buf o w = true → ∃ v, R o = .ok (some v)) :
    ∀ (count : Nat) (off : ℚ), checkBoundsQ buf off (w * count) = true →
      ∃ l, readNumSeq R off (w : ℚ) count = .ok l ∧ l.length = count := by
  intro count
  induction count with
  | zero => intro off _; exact ⟨[], rfl, rfl⟩
  | succ c ih =>
    intro off h
    have h1 : checkBoundsQ buf off w = true :=
      checkBounds_mono h (Nat.le_mul_of_pos_right w (by omega))
    obtain ⟨v, hv⟩ := hR off h1
    have h2 : checkBoundsQ buf (qAdd off (w : ℚ)) (w * c) = true := by
      have := checkBounds_shift (a := w) (b := w * c)
        (by rw [show w + w * c = w * (c + 1) from by ring]; exact h)
      simpa using this
    obtain ⟨l, hl, hlen⟩ := ih (qAdd off (w : ℚ)) h2
    refine ⟨v :: l, ?_, by simp [hlen]⟩
    rw [readNumSeq, hv, exbind_ok]
    simp only [hl, exbind_ok]
    rfl

theorem readRational_ok (buf : Bytes) (le : Bool) (off : ℚ) :
    ∃ v, readRational buf le off = .ok v := by
  obtain ⟨n, hn⟩ := safeReadUint32_ok buf off le
  obtain ⟨d, hd⟩ := safeReadUint32_ok buf (qAdd off 4) le
  rw [readRational, hn, exbind_ok, hd, exbind_ok]
  rcases n with _ | n <;> rcases d with _ | d
  · exact ⟨none, rfl⟩
  · exact ⟨none, rfl⟩
  · exact ⟨none, rfl⟩
  · by_cases hz : d = 0
    · exact ⟨none, by simp [hz]; rfl⟩
    · exact ⟨some (qDivNat n d), by simp [hz]; rfl⟩

theorem readRational_zero_den (buf : Bytes) (le : Bool) (off : ℚ)
    (h : safeReadUint32 buf (qAdd off 4) le = .ok (some 0)) :
    readRational buf le off = .ok none := by
  obtain ⟨n, hn⟩ := safeReadUint32_ok buf off le
  rw [readRational, hn, exbind_ok, h, exbind_ok]
  rcases n with _ | n
  · rfl
  · simp; rfl

theorem natReader8_some {buf : Bytes} {off : ℚ} (h : checkBoundsQ buf off 1 = true) :
    ∃ v, natReader (fun o => safeReadUint8 buf o) off = .ok (some v) := by
  refine ⟨((byteAt buf (qTrunc off) : ℚ)), ?_⟩
  rw [natReader]
  simp only [safeReadUint8_some h]
  rfl

theorem natReader16_some {buf : Bytes} {off : ℚ} {le : Bool}
    (h : checkBoundsQ buf off 2 = true) :
    ∃ v, natReader (fun o => safeReadUint16 buf o le) off = .ok (some v) := by
  obtain ⟨v, hv⟩ := safeReadUint16_some (l := le) h
  refine ⟨(v : ℚ), ?_⟩
  rw [natReader]
  simp only [hv]
  rfl

theorem natReader32_some {buf : Bytes} {off : ℚ} {le : Bool}
    (h : checkBoundsQ buf off 4 = true) :
    ∃ v, natReader (fun o => safeReadUint32 buf o le) off = .ok (some v) := by
  obtain ⟨v, hv⟩ := safeReadUint32_some (l := le) h
  refine ⟨(v : ℚ), ?_⟩
  rw [natReader]
  simp only [hv]
  rfl

theorem seqResult_of_length {l : List ℚ} (h : 0 < l.length) :
    seqResult l = some (.arr (l.map JSVal.num)) := by
  rcases l with _ | ⟨a, l⟩
  · simp at h
  · rfl

theorem rvbt_u8_scalar {buf : Bytes} {le : Bool} {off : ℚ}
    (h : checkBoundsQ buf off 1 = true) :
    readValueByType buf le 1 1 off = .ok (some (.num (byteAt buf (qTrunc off)))) := by
  have step : readValueByType buf le 1 1 off =
      (do let v ← safeReadUint8 buf off; pure (v.map fun n => JSVal.num n)) := rfl
  rw [step, safeReadUint8_some h, exbind_ok]
  rfl

theorem rvbt_u8_seq {buf : Bytes} {le : Bool} {off : ℚ} {count : Nat}
    (hc : 1 < count) (h : checkBoundsQ buf off count = true) :
    ∃ l, readValueByType buf le 1 count off = .ok (some (.arr l)) ∧ l.length = count := by
  obtain ⟨l, hl, hlen⟩ := readNumSeq_full buf (natReader (fun o => safeReadUint8 buf o)) 1
    (fun o ho => natReader8_some ho) count off (by simpa using h)
  refine ⟨l.map JSVal.num, ?_, by simp [hlen]⟩
  rw [readValueByType, if_neg (by omega), if_neg (by omega)]
  rw [show ((1 : Nat) : ℚ) = (1 : ℚ) from by norm_num] at hl
  rw [hl, exbind_ok, seqResult_of_length (by omega)]
  rfl

theorem rvbt_u16_scalar {buf : Bytes} {le : Bool} {off : ℚ}
    (h : checkBoundsQ buf off 2 = true) :
    ∃ v : Nat, readValueByType buf le 3 1 off = .ok (some (.num v)) := by
  obtain ⟨v, hv⟩ := safeReadUint16_some (l := le) h
  refine ⟨v, ?_⟩
  have step : readValueByType buf le 3 1 off =
      (do let v ← safeReadUint16 buf off le; pure (v.map fun n => JSVal.num n)) := rfl
  rw [step, hv, exbind_ok]
  rfl

theorem rvbt_u16_seq {buf : Bytes} {le : Bool} {off : ℚ} {count : Nat}
    (hc : 1 < count) (h : checkBoundsQ buf off (2 * count) = true) :
    ∃ l, readValueByType buf le 3 count off = .ok (some (.arr l)) ∧ l.length = count := by
  obtain ⟨l, hl, hlen⟩ := readNumSeq_full buf (natReader (fun o => safeReadUint16 buf o le)) 2
    (fun o ho => natReader16_some ho) count off h
  refine ⟨l.map JSVal.num, ?_, by simp [hlen]⟩
  rw [readValueByType, if_neg (by omega), if_neg (by omega)]
  rw [show ((2 : Nat) : ℚ) = (2 : ℚ) from by norm_num] at hl
  rw [hl, exbind_ok, seqResult_of_length (by omega)]
  rfl

theorem rvbt_u32_scalar {buf : Bytes} {le : Bool} {off : ℚ}
    (h : checkBoundsQ buf off 4 = true) :
    ∃ v : Nat, readValueByType buf le 4 1 off = .ok (some (.num v)) := by
  obtain ⟨v, hv⟩ := safeReadUint32_some (l := le) h
  refine ⟨v, ?_⟩
  have step : readValueByType buf le 4 1 off =
      (do let v ← safeReadUint32 buf off le; pure (v.map fun n => JSVal.num n)) := rfl
  rw [step, hv, exbind_ok]
  rfl

theorem rvbt_u32_seq {buf : Bytes} {le : Bool} {off : ℚ} {count : Nat}
    (hc : 1 < count) (h : checkBoundsQ buf off (4 * count) = true) :
    ∃ l, readValueByType buf le 4 count off = .ok (some (.arr l)) ∧ l.length = count := by
  obtain ⟨l, hl, hlen⟩ := readNumSeq_full buf (natReader (fun o => safeReadUint32 buf o le)) 4
    (fun o ho => natReader32_some ho) count off h
  refine ⟨l.map JSVal.num, ?_, by simp [hlen]⟩
  rw [readValueByType, if_neg (by omega), if_neg (by omega)]
  rw [show ((4 : Nat) : ℚ) = (4 : ℚ) from by norm_num] at hl
  rw [hl, exbind_ok, seqResult_of_length (by omega)]
  rfl

theorem rvbt_ascii {buf : Bytes} {le : Bool} {off : ℚ} {count : Nat}
    (hc : 1 ≤ count) (h : checkBoundsQ buf off count = true) :
    ∃ s, readValueByType buf le 2 count off = .ok (some (.str s)) := by
  obtain ⟨s, hs⟩ := readStringLoop_some buf count off "" h
  refine ⟨s, ?_⟩
  rw [readValueByType, if_neg (by omega)]
  show (do let s ← safeReadString buf off count; pure (s.map JSVal.str)) = _
  rw [safeReadString, if_pos h, hs, exbind_ok]
  rfl

theorem rvbt_undef7 {buf : Bytes} {le : Bool} {off : ℚ} {count : Nat}
    (hc : 1 ≤ count) (h : checkBoundsQ buf off count = true) :
    ∃ l, readValueByType buf le 7 count off = .ok (some (.arr l)) ∧ l.length = count := by
  refine ⟨(List.range count).map (fun i => JSVal.num (byteAt buf (qTrunc off + i))), ?_, by simp⟩
  rw [readValueByType, if_neg (by omega)]
  show (if checkBoundsQ buf off count then _ else _) = _
  rw [if_pos h]
  rfl

theorem rvbt_slong9 {buf : Bytes} {le : Bool} {off : ℚ} {count : Nat}
    (hc : 1 ≤ count) (h : checkBoundsQ buf off 4 = true) :
    ∃ z : ℤ, readValueByType buf le 9 count off = .ok (some (.num (z : ℚ))) := by
  obtain ⟨z, hz⟩ := rawI32_ok (l := le) h
  refine ⟨z, ?_⟩
  rw [readValueByType, if_neg (by omega)]
  show (if checkBoundsQ buf off 4 then
    (do let v ← rawI32 buf off le; pure (some (JSVal.num (v : ℚ)))) else pure none) = _
  rw [if_pos h, hz, exbind_ok]
  rfl

theorem rvbt_u8_oob {buf : Bytes} {le : Bool} {off : ℚ} {count : Nat}
    (h : checkBoundsQ buf off 1 = false) :
    readValueByType buf le 1 count off = .ok none := by
  rcases count with _ | _ | c
  · rfl
  · have step : readValueByType buf le 1 1 off =
        (do let v ← safeReadUint8 buf off; pure (v.map fun n => JSVal.num n)) := rfl
    rw [step, safeReadUint8_none h, exbind_ok]
    rfl
  · rw [readValueByType, if_neg (by omega), if_neg (by omega), readNumSeq, natReader]
    rw [safeReadUint8_none h]
    rfl

theorem rvbt_u16_oob {buf : Bytes} {le : Bool} {off : ℚ} {count : Nat}
    (h : checkBoundsQ buf off 2 = false) :
    readValueByType buf le 3 count off = .ok none := by
  rcases count with _ | _ | c
  · rfl
  · have step : readValueByType buf le 3 1 off =
        (do let v ← safeReadUint16 buf off le; pure (v.map fun n => JSVal.num n)) := rfl
    rw [step, safeReadUint16_none h, exbind_ok]
    rfl
  · rw [readValueByType, if_neg (by omega), if_neg (by omega), readNumSeq, natReader]
    rw [safeReadUint16_none h]
    rfl

theorem rvbt_u32_oob {buf : Bytes} {le : Bool} {off : ℚ} {count : Nat}
    (h : checkBoundsQ buf off 4 = false) :
    readValueByType buf le 4 count off = .ok none := by
  rcases count with _ | _ | c
  · rfl
  · have step : readValueByType buf le 4 1 off =
        (do let v ← safeReadUint32 buf off le; pure (v.map fun n => JSVal.num n)) := rfl
    rw [step, safeReadUint32_none h, exbind_ok]
    rfl
  · rw [readValueByType, if_neg (by omega), if_neg (by omega), readNumSeq, natReader]
    rw [safeReadUint32_none h]
    rfl

theorem parseIFDE_cyc : ∀ (fuel : Nat) (tags : Tags),
    parseIFDE cycBuf false 0 fuel 8 tags = .error ⟨tags, true⟩ := by
  intro fuel
  induction fuel with
  | zero => intro tags; rfl
  | succ n ih =>
    intro tags
    rw [parseIFDE]
    have e1 : checkBoundsQ cycBuf 8 2 = true := rfl
    have e2 : safeReadUint16 cycBuf 8 false = Except.ok (some 0) := rfl
    have e3 : parseEntries cycBuf false 0
        (fun off t => parseIFDE cycBuf false 0 n off t) 0 (qAdd 8 2) tags
        = .ok (tags, qAdd 8 2) := rfl
    have e4 : checkBoundsQ cycBuf (qAdd 8 2) 4 = true := rfl
    have e5 : safeReadUint32 cycBuf (qAdd 8 2) false = .ok (some 8) := rfl
    simp only [e1, e2, e3, e4, e5, liftRead_ok, exbind_ok, Bool.not_true, Bool.false_eq_true,
      if_false, ite_false, ite_true, gt_iff_lt, Nat.zero_add, Nat.cast_ofNat, ne_eq]
    exact ih tags

theorem cleanData_mem (raw : List (String × JSVal)) (k : String) (v : JSVal) :
    (k, v) ∈ cleanData raw ↔
      ((k, v) ∈ raw ∧
        ((jsIsUndefined v = false ∧ jsIsNull v = false ∧ jsIsEmptyStr v = false ∧
          jsStartsWith k "_" = false ∧ jsStartsWith k "$" = false ∧
          jsTypeofObject v = false) ∨ jsIsArray v = true ∨ jsIsDate v = true)) := by
  rw [cleanData, List.mem_filter]
  apply and_congr_right
  intro _
  rw [keepEntry]
  simp only [Bool.and_eq_true, Bool.or_eq_true, Bool.not_eq_true']
  tauto

/-! ## Claim theorems -/

/-- C1: the core decode never raises for any byte buffer.  The body of
parse (parseMain, before its try/catch) returns an ok result on every
input and every stack budget, and the tag-record assembler processExifData
is a total function of that result — in fact the Exif signature comparison
of the scanner can never succeed (safeReadString stops at the first NUL
byte while the compared literal contains two NUL characters), so the
structured result is always the empty tag list. -/
theorem c1_core_never_raises :
    ∀ (buf : Bytes) (fuel : Nat),
      parseMain buf fuel = .ok [] ∧ parse buf fuel = [] ∧
      processExifData (parse buf fuel) = [] := by
  intro buf fuel
  refine ⟨parseMain_ok buf fuel, ?_, ?_⟩
  · rw [parse, parseMain_ok buf fuel]
  · rw [parse, parseMain_ok buf fuel]
    rfl

/-- C2: the claim says IFD decoding terminates on a next-IFD pointer that
refers back to an already-visited offset.  The code has no visited-offset
set and no depth cap: on the buffer cycBuf, whose directory at offset 8
has zero entries and next-IFD pointer 8, parseIFD at offset 8 consumes any
stack budget whatsoever and ends only in the modelled engine
stack-overflow exception — the recursion is unbounded (the spec itself
calls this a must-fix hardening gap). -/
theorem c2_ifd_cycle_unbounded :
    ∀ (fuel : Nat) (tags : Tags),
      parseIFDE cycBuf false 0 fuel 8 tags = .error ⟨tags, true⟩ :=
  parseIFDE_cyc

/-- C3 counterexample: categorizeExifTag "Model" is not medium as the
claim states; the high allow-list contains the entry Model (in its
AI-generation section), and the high scan precedes the medium scan. -/
theorem c3_model_is_not_medium : ¬ (categorizeExifTag "Model" = Privacy.medium) := by
  decide

/-- C3 amended: the classifier yields high for GPSLatitude, safe for
ImageWidth and medium for the unrecognized FooBarBaz, but high — not
medium — for Model, which appears in the high allow-list. -/
theorem c3_classifier_precedence :
    categorizeExifTag "GPSLatitude" = .high ∧
    categorizeExifTag "Model" = .high ∧
    categorizeExifTag "ImageWidth" = .safe ∧
    categorizeExifTag "FooBarBaz" = .medium :=
  ⟨by decide, by decide, by decide, by decide⟩

/-- C4: each of the three malformed buffers — truncated mid-IFD, a TIFF
byte-order mark that is neither II nor MM, and a first-IFD offset past the
end of the buffer — produces an ok (no exception) empty tag map from
parse. -/
theorem c4_malformed_inputs_empty :
    (parseMain truncatedIFDBuf 8 = .ok [] ∧ parse truncatedIFDBuf 8 = []) ∧
    (parseMain badByteOrderBuf 8 = .ok [] ∧ parse badByteOrderBuf 8 = []) ∧
    (parseMain badIFDOffsetBuf 8 = .ok [] ∧ parse badIFDOffsetBuf 8 = []) :=
  ⟨⟨by rfl, by rfl⟩, ⟨by rfl, by rfl⟩, ⟨by rfl, by rfl⟩⟩

/-- C5 counterexample: a directory decoded in the main (IFD0) position
whose entry has the GPS-range tag ID 0x0002 is resolved to the GPS name
GPSLatitude, refuting the claim that entries of a main-namespace IFD are
never resolved through the GPS table — getTagInfo is one flat table with
no namespace argument. -/
theorem c5_main_ifd_gets_gps_name :
    parseIFDE gpsMainBuf false 0 2 0 [] = .ok [("GPSLatitude", JSVal.num 7)] := by
  rfl

/-- C5 amended: resolution is namespace-agnostic.  Every tag ID in the GPS
numeric space 0x0000–0x001E resolves through the single flat table exactly
as through the GPS rows alone (the table has no main-namespace entry in
that range), so GPS sub-IFD entries do get GPS names — but the same
resolution applies in a main IFD, as the decoded buffer shows. -/
theorem c5_namespace_agnostic_table :
    (∀ t : Nat, t ≤ 0x1E → getTagInfo t = gpsTagIdNames.lookup t) ∧
    parseIFDE gpsMainBuf false 0 2 0 [] = .ok [("GPSLatitude", JSVal.num 7)] :=
  ⟨by decide, by rfl⟩

/-- C5 witness: the amended theorem applied at the concrete GPS-range tag
ID 2. -/
theorem c5_namespace_agnostic_table_w :
    (2 ≤ 0x1E) ∧ getTagInfo 2 = gpsTagIdNames.lookup 2 :=
  ⟨by decide, c5_namespace_agnostic_table.1 2 (by decide)⟩

/-- C6 counterexample: the value decoder does not return a sequence of
exactly count scalars for every supported type.  Type 9 (SLONG) with
count 2 returns the bare scalar 5 on the buffer zeroDenBuf, ignoring
count; and a type-3 read of count 3 that runs out of bounds midway
returns the two-element prefix already read instead of the null the claim
requires for any out-of-bounds access. -/
theorem c6_type9_and_partial_oob :
    readValueByType zeroDenBuf false 9 2 0 = .ok (some (JSVal.num 5)) ∧
    readValueByType [0, 1, 0, 2] false 3 3 0 =
      .ok (some (.arr [JSVal.num 1, JSVal.num 2])) :=
  ⟨by rfl, by rfl⟩

/-- C6 amended: for types 1, 3 and 4, a fully in-bounds read returns a
bare scalar at count 1 and an ordered sequence of exactly count scalars at
count above 1; type 2 returns a string; type 7 returns a byte sequence of
count elements even at count 1; type 9 returns one signed scalar
regardless of count; and an out-of-bounds access at the first element
yields null for types 1, 3 and 4 (an out-of-bounds partway through
instead truncates to the prefix already read, as the counterexample
shows). -/
theorem c6_value_decoder_shapes :
    (∀ (buf : Bytes) (le : Bool) (off : ℚ), checkBoundsQ buf off 1 = true →
      readValueByType buf le 1 1 off = .ok (some (.num (byteAt buf (qTrunc off))))) ∧
    (∀ (buf : Bytes) (le : Bool) (off : ℚ) (count : Nat),
      1 < count → checkBoundsQ buf off count = true →
      ∃ l, readValueByType buf le 1 count off = .ok (some (.arr l)) ∧ l.length = count) ∧
    (∀ (buf : Bytes) (le : Bool) (off : ℚ), checkBoundsQ buf off 2 = true →
      ∃ v : Nat, readValueByType buf le 3 1 off = .ok (some (.num v))) ∧
    (∀ (buf : Bytes) (le : Bool) (off : ℚ) (count : Nat),
      1 < count → checkBoundsQ buf off (2 * count) = true →
      ∃ l, readValueByType buf le 3 count off = .ok (some (.arr l)) ∧ l.length = count) ∧
    (∀ (buf : Bytes) (le : Bool) (off : ℚ), checkBoundsQ buf off 4 = true →
      ∃ v : Nat, readValueByType buf le 4 1 off = .ok (some (.num v))) ∧
    (∀ (buf : Bytes) (le : Bool) (off : ℚ) (count : Nat),
      1 < count → checkBoundsQ buf off (4 * count) = true →
      ∃ l, readValueByType buf le 4 count off = .ok (some (.arr l)) ∧ l.length = count) ∧
    (∀ (buf : Bytes) (le : Bool) (off : ℚ) (count : Nat),
      1 ≤ count → checkBoundsQ buf off count = true →
      ∃ s, readValueByType buf le 2 count off = .ok (some (.str s))) ∧
    (∀ (buf : Bytes) (le : Bool) (off : ℚ) (count : Nat),
      1 ≤ count → checkBoundsQ buf off count = true →
      ∃ l, readValueByType buf le 7 count off = .ok (some (.arr l)) ∧ l.length = count) ∧
    (∀ (buf : Bytes) (le : Bool) (off : ℚ) (count : Nat),
      1 ≤ count → checkBoundsQ buf off 4 = true →
      ∃ z : ℤ, readValueByType buf le 9 count off = .ok (some (.num (z : ℚ)))) ∧
    (∀ (buf : Bytes) (le : Bool) (off : ℚ) (count : Nat),
      checkBoundsQ buf off 1 = false → readValueByType buf le 1 count off = .ok none) ∧
    (∀ (buf : Bytes) (le : Bool) (off : ℚ) (count : Nat),
      checkBoundsQ buf off 2 = false → readValueByType buf le 3 count off = .ok none) ∧
    (∀ (buf : Bytes) (le : Bool) (off : ℚ) (count : Nat),
      checkBoundsQ buf off 4 = false → readValueByType buf le 4 count off = .ok none) :=
  ⟨fun _ _ _ h => rvbt_u8_scalar h,
   fun _ _ _ _ hc h => rvbt_u8_seq hc h,
   fun _ _ _ h => rvbt_u16_scalar h,
   fun _ _ _ _ hc h => rvbt_u16_seq hc h,
   fun _ _ _ h => rvbt_u32_scalar h,
   fun _ _ _ _ hc h => rvbt_u32_seq hc h,
   fun _ _ _ _ hc h => rvbt_ascii hc h,
   fun _ _ _ _ hc h => rvbt_undef7 hc h,
   fun _ _ _ _ hc h => rvbt_slong9 hc h,
   fun _ _ _ _ h => rvbt_u8_oob h,
   fun _ _ _ _ h => rvbt_u16_oob h,
   fun _ _ _ _ h => rvbt_u32_oob h⟩

/-- C6 witness: the amended theorem applied at a concrete four-byte
buffer — the type-3 sequence branch at count 2 and the scalar branch at
count 1. -/
theorem c6_value_decoder_shapes_w :
    (checkBoundsQ [0, 1, 0, 2] 0 (2 * 2) = true ∧
      ∃ l, readValueByType [0, 1, 0, 2] false 3 2 0 = .ok (some (.arr l)) ∧
        l.length = 2) ∧
    (checkBoundsQ [0, 1, 0, 2] 0 2 = true ∧
      ∃ v : Nat, readValueByType [0, 1, 0, 2] false 3 1 0 = .ok (some (.num v))) :=
  ⟨⟨by rfl, c6_value_decoder_shapes.2.2.2.1 [0, 1, 0, 2] false 0 2 (by omega) (by rfl)⟩,
   ⟨by rfl, c6_value_decoder_shapes.2.2.1 [0, 1, 0, 2] false 0 (by rfl)⟩⟩

/-- C7: GPS conversion.  A three-or-more element coordinate of numbers
converts through degrees + minutes/60 + seconds/3600 and is negated
exactly when the reference is the string S or W; the references default
to N and E when the reference tag is absent; and the GPS record is
undefined when latitude or longitude is missing from the tag map or its
conversion yields null. -/
theorem c7_gps_extraction :
    (∀ (deg mn sec : ℚ) (rest : List JSVal) (ref : JSVal),
      convertGPSToDecimal (.arr (.num deg :: .num mn :: .num sec :: rest)) ref =
        some (if isRefSW ref = true then -(deg + mn / 60 + sec / 3600)
              else deg + mn / 60 + sec / 3600)) ∧
    (∀ tags : Tags, tags.lookup "GPSLatitudeRef" = none →
      refOf tags "GPSLatitudeRef" "N" = .str "N") ∧
    (∀ tags : Tags, tags.lookup "GPSLongitudeRef" = none →
      refOf tags "GPSLongitudeRef" "E" = .str "E") ∧
    (∀ tags : Tags, lookupD tags "GPSLatitude" = .jsUndefined → extractGps tags = none) ∧
    (∀ tags : Tags, lookupD tags "GPSLongitude" = .jsUndefined → extractGps tags = none) ∧
    (∀ tags : Tags, convertGPSToDecimal (lookupD tags "GPSLatitude")
        (refOf tags "GPSLatitudeRef" "N") = none → extractGps tags = none) ∧
    (∀ tags : Tags, convertGPSToDecimal (lookupD tags "GPSLongitude")
        (refOf tags "GPSLongitudeRef" "E") = none → extractGps tags = none) :=
  ⟨convertGPS_dms,
   fun tags h => refOf_default tags "GPSLatitudeRef" "N" h,
   fun tags h => refOf_default tags "GPSLongitudeRef" "E" h,
   extractGps_lat_missing, extractGps_lon_missing,
   extractGps_lat_null, extractGps_lon_null⟩

/-- C7 witness: the spec example triple 40 deg 26 min 46 sec with
southern reference, the default latitude reference on an empty tag map,
and the undefined GPS record on an empty tag map. -/
theorem c7_gps_extraction_w :
    convertGPSToDecimal (.arr [.num 40, .num 26, .num 46]) (.str "S") =
      some (-(40 + 26 / 60 + 46 / 3600 : ℚ)) ∧
    (([] : Tags).lookup "GPSLatitudeRef" = none ∧
      refOf [] "GPSLatitudeRef" "N" = .str "N") ∧
    (lookupD [] "GPSLatitude" = .jsUndefined ∧ extractGps [] = none) := by
  refine ⟨?_, ⟨by rfl, c7_gps_extraction.2.1 [] (by rfl)⟩,
    ⟨by rfl, c7_gps_extraction.2.2.2.1 [] (by rfl)⟩⟩
  have h := c7_gps_extraction.1 40 26 46 [] (.str "S")
  simpa using h

/-- C8 counterexample: on the buffer with numerator 5 and denominator 0,
readRational returns null, not the 0.0 the claim states. -/
theorem c8_zero_denominator_is_null :
    readRational zeroDenBuf false 0 = .ok none ∧
    (Except.ok (none : Option ℚ) : Except Unit (Option ℚ)) ≠ .ok (some 0) :=
  ⟨by rfl, by simp⟩

/-- C8 amended: readRational never raises, and returns null — the tag is
then dropped — when the denominator reads as zero. -/
theorem c8_rational_reader :
    ∀ (buf : Bytes) (le : Bool) (off : ℚ),
      (∃ v, readRational buf le off = .ok v) ∧
      (safeReadUint32 buf (qAdd off 4) le = .ok (some 0) →
        readRational buf le off = .ok none) :=
  fun buf le off =>
    ⟨readRational_ok buf le off, fun h => readRational_zero_den buf le off h⟩

/-- C8 witness: the amended theorem applied to the concrete
zero-denominator buffer. -/
theorem c8_rational_reader_w :
    safeReadUint32 zeroDenBuf (qAdd 0 4) false = .ok (some 0) ∧
    readRational zeroDenBuf false 0 = .ok none :=
  ⟨by rfl, (c8_rational_reader zeroDenBuf false 0).2 (by rfl)⟩

/-- C9 counterexample: an entry whose key has the reserved prefix but
whose value is an array passes the filter and appears in the output of
processExifData, because the two array/Date disjuncts of the filter are
outside the conjunction chain by operator precedence. -/
theorem c9_reserved_key_array_kept :
    (processExifData [("_x", JSVal.arr [JSVal.num 1])]).map ExifTag.tag = ["_x"] := by
  rfl

/-- C9 amended: the filtering stage keeps exactly the entries that either
satisfy all the undefined/null/empty-string, reserved-prefix and
plain-object conditions, or have an array or Date value — the array/Date
escape bypasses every other filter; processExifData is that filter
followed by assembly and the stable category-then-name sort. -/
theorem c9_filter_characterization :
    (∀ (raw : List (String × JSVal)) (k : String) (v : JSVal),
      (k, v) ∈ cleanData raw ↔
        ((k, v) ∈ raw ∧
          ((jsIsUndefined v = false ∧ jsIsNull v = false ∧ jsIsEmptyStr v = false ∧
            jsStartsWith k "_" = false ∧ jsStartsWith k "$" = false ∧
            jsTypeofObject v = false) ∨ jsIsArray v = true ∨ jsIsDate v = true))) ∧
    (∀ raw, processExifData raw = sortTags ((cleanData raw).filterMap assembleTag)) :=
  ⟨cleanData_mem, fun _ => rfl⟩

/-- C10 counterexample: a truthy but unparseable GPSAltitude string gives
a populated altitude field holding NaN, refuting the claim that altitude
is only populated for a nonzero parseable value. -/
theorem c10_unparseable_altitude_nan :
    extractGps [("GPSLatitude", JSVal.num 40), ("GPSLongitude", JSVal.num 2),
      ("GPSAltitude", JSVal.str "abc")] =
    some { latitude := 40, longitude := 2, altitude := some none } := by
  rfl

/-- C10 amended: in every returned GPS record the altitude field is
absent exactly when the decoded GPSAltitude value is falsy — zero, the
empty string, or missing; in particular a zero altitude is dropped while
latitude and longitude are still returned, and any truthy value populates
the field (with NaN when unparseable). -/
theorem c10_altitude_absent_iff_falsy :
    ∀ (tags : Tags) (g : GpsRec), extractGps tags = some g →
      (g.altitude = none ↔ jsTruthy (lookupD tags "GPSAltitude") = false) := by
  intro tags g h
  rw [extractGps_altitude tags g h]
  exact altitudeOf_none_iff (lookupD tags "GPSAltitude")

/-- C10 witness: the theorem applied to a tag map whose GPSAltitude is the
sea-level value 0 — the returned record has latitude and longitude but no
altitude. -/
theorem c10_altitude_absent_iff_falsy_w :
    extractGps [("GPSLatitude", JSVal.num 40), ("GPSLongitude", JSVal.num 2),
        ("GPSAltitude", JSVal.num 0)] =
      some { latitude := 40, longitude := 2, altitude := none } ∧
    ((none : Option (Option ℚ)) = none ↔
      jsTruthy (lookupD [("GPSLatitude", JSVal.num 40), ("GPSLongitude", JSVal.num 2),
        ("GPSAltitude", JSVal.num 0)] "GPSAltitude") = false) :=
  ⟨by rfl,
   c10_altitude_absent_iff_falsy
     [("GPSLatitude", JSVal.num 40), ("GPSLongitude", JSVal.num 2),
      ("GPSAltitude", JSVal.num 0)]
     { latitude := 40, longitude := 2, altitude := none } (by rfl)⟩

end ExifLab
